import Mathlib

/-!
# Aqua Nexus — verification of the derived-state core

Shallow embedding, in Lean 4, of the status-classification, alert-ordering,
aggregation, auto-centering, distance and simulation-scheduling logic of the
Aqua Nexus repository.  JavaScript numbers are modelled as `ℚ` where the code
only compares, adds and divides, and as `ℝ` where it calls trigonometric
functions; `null`/missing values are modelled by `Option`; JS objects become
structures.  Each definition is a direct translation of the source function it
is named after; definitions that translate code not present in the repository
snapshot (the Python backend classifier and simulator) are modelled from the
specification and say so in their doc comment.
-/

namespace AquaNexus

/-- Node/parameter status values used across the dashboard.  The repository's
status enum is {normal, warning, critical, offline}; the industrial dashboard
additionally produces the string `"unknown"` for a missing pH value, so the
embedding carries it as a fifth constructor. -/
inductive Status where
  | normal
  | warning
  | critical
  | offline
  | unknown
deriving DecidableEq, Repr

/-- From `admin-dashboard/src/components/StatsPanel.jsx` (IndustrialDashboard),
`getPhStatus`:

```js
const getPhStatus = (phLevel) => {
  if (phLevel == null) return 'unknown';
  if (phLevel < 6.0 || phLevel > 9.0) return 'critical';
  if (phLevel < 6.5 || phLevel > 8.5) return 'warning';
  return 'normal';
};
```
-/
def getPhStatus (phLevel : Option ℚ) : Status :=
  match phLevel with
  | none => Status.unknown
  | some ph =>
    if ph < 6.0 ∨ ph > 9.0 then Status.critical
    else if ph < 6.5 ∨ ph > 8.5 then Status.warning
    else Status.normal

/-- From `admin-dashboard/src/components/Charts.jsx` (RuralDashboard): the
selected-station averages

```js
const depthValues = depthData.map((d) => d.depth).filter((v) => v != null);
const avgDepthSelected = depthValues.length > 0
  ? depthValues.reduce((sum, value) => sum + value, 0) / depthValues.length
  : null;
```

modelled over a list of optional values: keep the present values, return
`none` when there are none, otherwise their arithmetic mean. -/
def avgPresent (values : List (Option ℚ)) : Option ℚ :=
  let present := values.filterMap id
  if present.length > 0 then
    some (present.foldl (fun sum value => sum + value) 0 / present.length)
  else none

/-- C1: for every reading with a pH value, `getPhStatus` returns `critical`
when the pH is outside [6.0, 9.0], `warning` when the pH is outside [6.5, 8.5]
but inside [6.0, 9.0], `normal` otherwise; in particular pH 11.0 is
classified `critical`. -/
theorem C1_ph_classification (ph : ℚ) :
    ((ph < 6 ∨ 9 < ph) → getPhStatus (some ph) = Status.critical) ∧
    ((6 ≤ ph ∧ ph ≤ 9) → (ph < 6.5 ∨ 8.5 < ph) →
      getPhStatus (some ph) = Status.warning) ∧
    ((6.5 ≤ ph ∧ ph ≤ 8.5) → getPhStatus (some ph) = Status.normal) ∧
    getPhStatus (some 11) = Status.critical := by
  refine ⟨fun h => ?_, fun hin hsoft => ?_, fun hnorm => ?_, ?_⟩
  · simp only [getPhStatus]
    rw [if_pos]
    rcases h with h | h
    · exact Or.inl (by norm_num; linarith)
    · exact Or.inr (by norm_num; linarith)
  · simp only [getPhStatus]
    rw [if_neg, if_pos]
    · rcases hsoft with h | h
      · exact Or.inl h
      · exact Or.inr (by norm_num; linarith)
    · rintro (h | h) <;> [linarith [hin.1]; (norm_num at h; linarith [hin.2])]
  · simp only [getPhStatus]
    rw [if_neg, if_neg]
    · rintro (h | h) <;> [linarith [hnorm.1]; linarith [hnorm.2]]
    · rintro (h | h)
      · norm_num at h; linarith [hnorm.1]
      · norm_num at h; linarith [hnorm.2]
  · norm_num [getPhStatus]

/-- Witness for C1: evaluated at the concrete pH values 11.0 (critical),
6.2 (warning) and 7.2 (normal). -/
theorem C1_ph_classification_witness :
    getPhStatus (some 11) = Status.critical ∧
    getPhStatus (some 6.2) = Status.warning ∧
    getPhStatus (some 7.2) = Status.normal :=
  ⟨(C1_ph_classification 11).1 (by norm_num),
   (C1_ph_classification 6.2).2.1 (by norm_num) (by norm_num),
   (C1_ph_classification 7.2).2.2.1 (by norm_num)⟩

/-- C2 counterexample: a reading with a missing pH value is NOT classified
`offline` — `getPhStatus` returns `unknown` for a null pH. -/
theorem C2_missing_ph_not_offline : getPhStatus none ≠ Status.offline := by
  simp [getPhStatus]

/-- C2 (amended): for a reading with a missing pH value the classifier does
not throw; it fails closed to the `unknown` status value (not `offline`). -/
theorem C2_missing_ph_unknown : getPhStatus none = Status.unknown := rfl

/-- C4: the arithmetic mean is computed only over present (non-null) values —
inserting a missing value anywhere leaves the mean unchanged (missing values
are excluded, not averaged as zero); over {40, 50, none} the mean is 45; and
when no values are present the result is the explicit "no data" value `none`
rather than a division by zero. -/
theorem C4_mean_excludes_missing :
    (∀ l₁ l₂ : List (Option ℚ),
      avgPresent (l₁ ++ none :: l₂) = avgPresent (l₁ ++ l₂)) ∧
    avgPresent [some 40, some 50, none] = some 45 ∧
    (∀ l : List (Option ℚ), l.filterMap id = [] → avgPresent l = none) := by
  refine ⟨fun l₁ l₂ => ?_, ?_, fun l h => ?_⟩
  · simp only [avgPresent, List.filterMap_append, List.filterMap_cons, id]
  · simp [avgPresent, List.filterMap_cons]
    norm_num
  · simp [avgPresent, h]

/-- Witness for C4: the all-missing list [none, none] yields `none`, and the
concrete list with values {40, 50, none} yields mean 45. -/
theorem C4_mean_excludes_missing_witness :
    avgPresent [none, none] = none ∧
    avgPresent [some 40, some 50, none] = some 45 :=
  ⟨C4_mean_excludes_missing.2.2 [none, none] rfl,
   C4_mean_excludes_missing.2.1⟩

/-- Alert severities produced by the alert engine (`info` is an extension
point; the threshold logic emits `warning` and `critical`). -/
inductive Severity where
  | critical
  | warning
  | info
deriving DecidableEq, Repr

/-- An alert record as consumed by the dashboard feed: identity, the
timestamp of the triggering reading (milliseconds since epoch, as a JS
`Date` value), and a severity tag. -/
structure Alert where
  id : Nat
  timestamp : ℤ
  severity : Severity
deriving DecidableEq, Repr

/-- Insertion step of a stable descending-by-timestamp sort: walk past the
elements whose timestamp is strictly greater, then place `a` (so `a` lands
before every element whose timestamp equals its own, preserving input
order of ties). -/
def insertByTimestampDesc (a : Alert) : List Alert → List Alert
  | [] => [a]
  | b :: rest =>
    if a.timestamp < b.timestamp then b :: insertByTimestampDesc a rest
    else a :: b :: rest

/-- From the alerts feed component (`src/unnamed/part_003`):

```js
const sortedAlerts = (alertsRes.data.alerts || []).sort(
  (a, b) => new Date(b.timestamp) - new Date(a.timestamp)
);
```

`Array.prototype.sort` is stable and this comparator orders by timestamp
descending only, so the call is modelled as a stable insertion sort on the
timestamp (descending); the comparator never consults the severity. -/
def sortedAlerts : List Alert → List Alert
  | [] => []
  | a :: rest => insertByTimestampDesc a (sortedAlerts rest)

/-- Rank of a severity in the ordering the specification claims for ties:
critical before warning (before info). -/
def sevRank : Severity → Nat
  | Severity.critical => 0
  | Severity.warning => 1
  | Severity.info => 2

/-- The ordering the claim asserts for the alert output: most recent
timestamp first, and any two alerts with equal timestamps ordered with
critical before warning. -/
def claimOrdered (l : List Alert) : Prop :=
  l.Pairwise (fun a b => b.timestamp < a.timestamp ∨
    (a.timestamp = b.timestamp ∧ sevRank a.severity ≤ sevRank b.severity))

instance : DecidablePred claimOrdered := fun l =>
  List.instDecidablePairwise l

theorem insertByTimestampDesc_perm (a : Alert) (l : List Alert) :
    (insertByTimestampDesc a l).Perm (a :: l) := by
  induction l with
  | nil => exact List.Perm.refl _
  | cons b rest ih =>
    by_cases h : a.timestamp < b.timestamp
    · simp only [insertByTimestampDesc, if_pos h]
      exact (ih.cons b).trans (List.Perm.swap a b rest)
    · simp only [insertByTimestampDesc, if_neg h]
      exact List.Perm.refl _

theorem insertByTimestampDesc_pairwise (a : Alert) (l : List Alert)
    (h : l.Pairwise (fun x y => y.timestamp ≤ x.timestamp)) :
    (insertByTimestampDesc a l).Pairwise
      (fun x y => y.timestamp ≤ x.timestamp) := by
  induction l with
  | nil => simp [insertByTimestampDesc]
  | cons b rest ih =>
    rcases List.pairwise_cons.mp h with ⟨hb, hrest⟩
    by_cases hab : a.timestamp < b.timestamp
    · simp only [insertByTimestampDesc, if_pos hab]
      refine List.pairwise_cons.mpr ⟨fun c hc => ?_, ih hrest⟩
      have hmem : c ∈ a :: rest :=
        (insertByTimestampDesc_perm a rest).mem_iff.mp hc
      rcases List.mem_cons.mp hmem with rfl | hc2
      · exact le_of_lt hab
      · exact hb c hc2
    · simp only [insertByTimestampDesc, if_neg hab]
      push_neg at hab
      refine List.pairwise_cons.mpr ⟨fun c hc => ?_, h⟩
      rcases List.mem_cons.mp hc with rfl | hc2
      · exact hab
      · exact le_trans (hb c hc2) hab

theorem insertByTimestampDesc_filter (a : Alert) (l : List Alert) (t : ℤ) :
    (insertByTimestampDesc a l).filter (fun x => decide (x.timestamp = t)) =
      if a.timestamp = t
      then a :: l.filter (fun x => decide (x.timestamp = t))
      else l.filter (fun x => decide (x.timestamp = t)) := by
  induction l with
  | nil =>
    by_cases h : a.timestamp = t <;>
      simp [insertByTimestampDesc, List.filter_cons, h]
  | cons b rest ih =>
    by_cases hab : a.timestamp < b.timestamp
    · simp only [insertByTimestampDesc, if_pos hab]
      by_cases hbt : b.timestamp = t
      · have hat : ¬a.timestamp = t := by
          intro h
          rw [h, ← hbt] at hab
          exact lt_irrefl _ hab
        simp [List.filter_cons, hbt, hat, ih]
      · simp [List.filter_cons, hbt, ih]
    · simp only [insertByTimestampDesc, if_neg hab]
      by_cases hat : a.timestamp = t <;> simp [List.filter_cons, hat]

/-- C3 counterexample: on the concrete input of two alerts with the same
timestamp, the warning one first, the sort leaves the warning alert before
the critical one — equal-timestamp alerts are NOT ordered with critical
before warning. -/
theorem C3_tie_not_broken_by_severity :
    ¬ claimOrdered (sortedAlerts
      [{ id := 1, timestamp := 5, severity := Severity.warning },
       { id := 2, timestamp := 5, severity := Severity.critical }]) := by
  decide

/-- C3 (amended): the alert output is ordered with the most recent
triggering timestamp first and is a permutation of the input; any two alerts
with equal timestamps keep their relative input order (the comparator never
consults the severity, so ties are resolved by the sort's stability, not by
severity). -/
theorem C3_sorted_by_timestamp_stable (alerts : List Alert) :
    (sortedAlerts alerts).Pairwise (fun a b => b.timestamp ≤ a.timestamp) ∧
    (sortedAlerts alerts).Perm alerts ∧
    (∀ t : ℤ, (sortedAlerts alerts).filter (fun a => decide (a.timestamp = t)) =
      alerts.filter (fun a => decide (a.timestamp = t))) := by
  induction alerts with
  | nil => exact ⟨List.Pairwise.nil, List.Perm.refl _, fun t => rfl⟩
  | cons a rest ih =>
    obtain ⟨hpw, hperm, hfil⟩ := ih
    refine ⟨insertByTimestampDesc_pairwise a _ hpw,
      (insertByTimestampDesc_perm a _).trans (hperm.cons a), fun t => ?_⟩
    show (insertByTimestampDesc a (sortedAlerts rest)).filter _ = _
    rw [insertByTimestampDesc_filter]
    by_cases hat : a.timestamp = t <;> simp [List.filter_cons, hat, hfil t]

/-- An urban telemetry reading as seen by the status classifier: the two
threshold-bearing fields, each possibly missing. -/
structure UrbanReading where
  pressure : Option ℚ
  ph_level : Option ℚ
deriving DecidableEq, Repr

/-- Modelled from the spec: the backend `StatusClassifier` (`backend/app`,
not present in this snapshot — only its README and dashboard consumers are).
Spec rules, first match wins: missing reading/field → `offline`;
category-specific hard-critical breach (urban: pressure < 30, pH outside
[6.0, 9.0]) → `critical`; soft breach (pressure within [30, 40), pH outside
[6.5, 8.5] but inside [6.0, 9.0]) → `warning`; otherwise `normal`. -/
def classifyUrban (reading : UrbanReading) : Status :=
  match reading.pressure, reading.ph_level with
  | some pressure, some ph =>
    if pressure < 30 ∨ ph < 6 ∨ ph > 9 then Status.critical
    else if pressure < 40 ∨ ph < 6.5 ∨ ph > 8.5 then Status.warning
    else Status.normal
  | _, _ => Status.offline

/-- C5: every well-formed urban reading with pressure < 30 is classified
`critical`, whatever its pH. -/
theorem C5_low_pressure_critical (pressure ph : ℚ) (h : pressure < 30) :
    classifyUrban { pressure := some pressure, ph_level := some ph } =
      Status.critical := by
  simp only [classifyUrban]
  rw [if_pos (Or.inl h)]

/-- Witness for C5: an urban reading with pressure = 25 (pH 7.2) is
classified `critical`. -/
theorem C5_low_pressure_critical_witness :
    classifyUrban { pressure := some 25, ph_level := some 7.2 } =
      Status.critical :=
  C5_low_pressure_critical 25 7.2 (by norm_num)

/-- The latest-telemetry record of a rural station as read by the rural
dashboard: aquifer depth and water-table depth, each possibly missing. -/
structure RuralTelemetry where
  aquifer_depth_m : Option ℚ
  water_table_m : Option ℚ
deriving DecidableEq, Repr

/-- A rural station record (same two optional fields, at station level). -/
structure StationRec where
  aquifer_depth_m : Option ℚ
  water_table_m : Option ℚ
deriving DecidableEq, Repr

/-- From `admin-dashboard/src/components/Charts.jsx` (RuralDashboard):

```js
const selectedAquiferDepth = selectedTelemetry?.aquifer_depth_m
  ?? selectedStationData?.aquifer_depth_m
  ?? stats.avg_aquifer_depth_m
  ?? 0;
```
-/
def selectedAquiferDepth (tele : Option RuralTelemetry)
    (station : Option StationRec) (avgAquiferDepth : Option ℚ) : ℚ :=
  (((tele.bind fun t => t.aquifer_depth_m).or
      (station.bind fun s => s.aquifer_depth_m)).or avgAquiferDepth).getD 0

/-- From `admin-dashboard/src/components/Charts.jsx` (RuralDashboard):

```js
const selectedWaterTableDepth = selectedTelemetry?.water_table_m
  ?? selectedStationData?.water_table_m
  ?? (selectedAquiferDepth ? selectedAquiferDepth * 0.25 : null);
```

(`selectedAquiferDepth ? _ : null` is JS truthiness: the product is taken
only when the aquifer depth is nonzero.) -/
def selectedWaterTableDepth (tele : Option RuralTelemetry)
    (station : Option StationRec) (avgAquiferDepth : Option ℚ) : Option ℚ :=
  ((tele.bind fun t => t.water_table_m).or
      (station.bind fun s => s.water_table_m)).or
    (if selectedAquiferDepth tele station avgAquiferDepth ≠ 0 then
      some (selectedAquiferDepth tele station avgAquiferDepth * 0.25)
    else none)

/-- C6: for every rural station whose telemetry (and station record) lacks an
explicit water-table value, the derived water table depth is exactly the
fraction 0.25 = 1/4 of the resolved aquifer depth (the dashboard fallback
adds no noise). -/
theorem C6_water_table_fraction (tele : Option RuralTelemetry)
    (station : Option StationRec) (avgAquiferDepth : Option ℚ)
    (h1 : tele.bind (fun t => t.water_table_m) = none)
    (h2 : station.bind (fun s => s.water_table_m) = none)
    (h3 : selectedAquiferDepth tele station avgAquiferDepth ≠ 0) :
    selectedWaterTableDepth tele station avgAquiferDepth =
      some (selectedAquiferDepth tele station avgAquiferDepth * (1 / 4)) := by
  simp only [selectedWaterTableDepth, h1, h2, Option.none_or, if_pos h3]
  norm_num

/-- Witness for C6: telemetry with aquifer depth 40 m and no water-table
value derives a water table depth of 10 m. -/
theorem C6_water_table_fraction_witness :
    selectedWaterTableDepth
      (some { aquifer_depth_m := some 40, water_table_m := none }) none none =
      some 10 := by
  rw [C6_water_table_fraction
    (some { aquifer_depth_m := some 40, water_table_m := none }) none none
    rfl rfl (by norm_num [selectedAquiferDepth])]
  norm_num [selectedAquiferDepth]

/-- A node as drawn on the admin map: geolocation plus the context mode the
filter compares against. -/
structure MapNode where
  id : Nat
  latitude : ℚ
  longitude : ℚ
  context_mode : String
deriving DecidableEq, Repr

/-- From `admin-dashboard/src/components/Map.jsx`:

```js
const filteredNodes = contextFilter === 'all'
  ? nodes
  : nodes.filter(node => node.context_mode === contextFilter);
```
-/
def filteredNodes (contextFilter : String) (nodes : List MapNode) :
    List MapNode :=
  if contextFilter = "all" then nodes
  else nodes.filter fun node => node.context_mode = contextFilter

/-- From `admin-dashboard/src/components/Map.jsx` (the auto-center effect):

```js
if (filteredNodes.length > 0) {
  const avgLat = filteredNodes.reduce((sum, n) => sum + n.latitude, 0) / filteredNodes.length;
  const avgLng = filteredNodes.reduce((sum, n) => sum + n.longitude, 0) / filteredNodes.length;
  setCenter([avgLat, avgLng]);
}
```

The function returns the new center, given the previous one (left unchanged
when the filtered list is empty, since `setCenter` is not called). -/
def autoCenter (contextFilter : String) (nodes : List MapNode)
    (center : ℚ × ℚ) : ℚ × ℚ :=
  let fns := filteredNodes contextFilter nodes
  if fns.length > 0 then
    (fns.foldl (fun sum n => sum + n.latitude) 0 / fns.length,
     fns.foldl (fun sum n => sum + n.longitude) 0 / fns.length)
  else center

theorem foldl_add_eq_sum_map (f : MapNode → ℚ) (l : List MapNode) :
    l.foldl (fun sum n => sum + f n) 0 = (l.map f).sum := by
  rw [List.sum_eq_foldl, List.foldl_map]

/-- C10: whenever the context filter yields a non-empty node list, the
recomputed map center is the pair of arithmetic means of the filtered
nodes' latitudes and longitudes; when the filtered list is empty the center
is left unchanged (no division by zero occurs). -/
theorem C10_auto_center (contextFilter : String) (nodes : List MapNode)
    (center : ℚ × ℚ) :
    (filteredNodes contextFilter nodes ≠ [] →
      autoCenter contextFilter nodes center =
        (((filteredNodes contextFilter nodes).map fun n => n.latitude).sum /
            (filteredNodes contextFilter nodes).length,
         ((filteredNodes contextFilter nodes).map fun n => n.longitude).sum /
            (filteredNodes contextFilter nodes).length)) ∧
    (filteredNodes contextFilter nodes = [] →
      autoCenter contextFilter nodes center = center) := by
  constructor
  · intro hne
    have hlen : (filteredNodes contextFilter nodes).length > 0 :=
      List.length_pos.mpr hne
    simp only [autoCenter, if_pos hlen, foldl_add_eq_sum_map]
  · intro he
    simp only [autoCenter, he, List.length_nil, gt_iff_lt, lt_irrefl,
      if_false]

/-- Witness for C10: on two nodes at (10, 20) and (30, 40) with the filter
`"all"` the center becomes (20, 30); with a filter matching no node the
center (7, 8) is unchanged. -/
theorem C10_auto_center_witness :
    autoCenter "all"
      [{ id := 1, latitude := 10, longitude := 20, context_mode := "urban" },
       { id := 2, latitude := 30, longitude := 40, context_mode := "rural" }]
      (0, 0) = (20, 30) ∧
    autoCenter "urban"
      [{ id := 1, latitude := 10, longitude := 20, context_mode := "rural" }]
      (7, 8) = (7, 8) := by
  constructor
  · rw [(C10_auto_center "all"
      [{ id := 1, latitude := 10, longitude := 20, context_mode := "urban" },
       { id := 2, latitude := 30, longitude := 40, context_mode := "rural" }]
      (0, 0)).1 (by decide)]
    norm_num [filteredNodes]
  · exact (C10_auto_center "urban"
      [{ id := 1, latitude := 10, longitude := 20, context_mode := "rural" }]
      (7, 8)).2 (by decide)

/-- Modelled from the spec: the simulator CLI configuration (`simulate.py` is
not present in this snapshot — only its README is).  "Command-line style
invocation of the scheduler accepts configuration: target interval (seconds,
default 2), cycle count (default: unbounded)".  `cycles = none` means
unbounded. -/
structure SchedulerConfig where
  interval : ℚ
  cycles : Option ℕ
deriving DecidableEq, Repr

/-- Modelled from the spec: building the scheduler configuration from the
optionally supplied command-line values, applying the documented defaults. -/
def mkSchedulerConfig (interval : Option ℚ) (cycles : Option ℕ) :
    SchedulerConfig :=
  { interval := interval.getD 2, cycles := cycles }

/-- C8: invoked without explicit configuration, the tick interval defaults
to 2 seconds and the cycle count defaults to unbounded, while explicitly
supplied values are kept. -/
theorem C8_scheduler_defaults :
    (mkSchedulerConfig none none).interval = 2 ∧
    (mkSchedulerConfig none none).cycles = none ∧
    (∀ (i : ℚ) (c : ℕ),
      mkSchedulerConfig (some i) (some c) =
        { interval := i, cycles := some c }) :=
  ⟨rfl, rfl, fun _ _ => rfl⟩

/-- The observable outcome of one simulation tick: the ordered list of
submission attempts made (one entry per attempted node submission) and the
per-cycle failure count. -/
structure CycleResult (Node : Type) where
  attempts : List Node
  failed : ℕ
deriving DecidableEq, Repr

/-- Modelled from the spec: one tick of the SimulationScheduler.  "Each
tick: generate one reading per node, submit all readings …, collect
per-node success/failure, log a cycle summary (submitted count, failed
count)."  Each node is submitted exactly once; a failure is only counted. -/
def runTick {Node : Type} (nodes : List Node) (submit : Node → Bool) :
    CycleResult Node :=
  { attempts := nodes,
    failed := (nodes.filter fun n => !submit n).length }

/-- Modelled from the spec: a bounded run of the scheduler.  Cycle `i` uses
the ingestion sink's behaviour for that cycle (`submit i`); readings are
generated fresh per cycle, and nothing is carried over between cycles. -/
def runCycles {Node : Type} (nodes : List Node)
    (submit : ℕ → Node → Bool) : ℕ → List (CycleResult Node)
  | 0 => []
  | k + 1 => runCycles nodes submit k ++ [runTick nodes (submit k)]

/-- C7: a failed submission is only counted, never retried within the same
tick and never queued for redelivery: the sequence of submission attempts of
a run is independent of which submissions fail, and every cycle attempts
exactly the node list once (so each node is submitted exactly once per
cycle, with fresh data, regardless of earlier failures). -/
theorem C7_no_retry_no_redelivery {Node : Type} (nodes : List Node)
    (submit submit' : ℕ → Node → Bool) (k : ℕ) :
    ((runCycles nodes submit k).map (fun r => r.attempts) =
      (runCycles nodes submit' k).map (fun r => r.attempts)) ∧
    (∀ r ∈ runCycles nodes submit k, r.attempts = nodes) := by
  induction k with
  | zero => exact ⟨rfl, fun r hr => absurd hr (List.not_mem_nil r)⟩
  | succ k ih =>
    obtain ⟨hmap, hmem⟩ := ih
    constructor
    · simp only [runCycles, List.map_append, hmap, List.map_cons,
        List.map_nil, runTick]
    · intro r hr
      rcases List.mem_append.mp hr with h | h
      · exact hmem r h
      · rcases List.mem_singleton.mp h with rfl
        rfl

/-- Witness for C7 (spec Scenario F): three nodes, node 2's sink always
failing, 3 cycles — the attempt sequence equals that of a run where nothing
fails, the failing cycle's attempts are still the full node list, and the
per-cycle failure counts are exactly [1, 1, 1]. -/
theorem C7_no_retry_no_redelivery_witness :
    ((runCycles ([1, 2, 3] : List ℕ) (fun _ n => decide (n ≠ 2)) 3).map
        (fun r => r.attempts) =
      (runCycles [1, 2, 3] (fun _ _ => true) 3).map (fun r => r.attempts)) ∧
    (runTick ([1, 2, 3] : List ℕ) (fun n => decide (n ≠ 2))).attempts =
      [1, 2, 3] ∧
    (runCycles ([1, 2, 3] : List ℕ) (fun _ n => decide (n ≠ 2)) 3).map
        (fun r => r.failed) = [1, 1, 1] :=
  ⟨(C7_no_retry_no_redelivery [1, 2, 3] (fun _ n => decide (n ≠ 2))
      (fun _ _ => true) 3).1,
   (C7_no_retry_no_redelivery [1, 2, 3] (fun _ n => decide (n ≠ 2))
      (fun _ _ => true) 3).2
     (runTick [1, 2, 3] (fun n => decide (n ≠ 2))) (by decide),
   by decide⟩

/-- JS `Math.atan2(y, x)` on real arguments (the negative-zero distinctions
of IEEE, irrelevant here, are collapsed). -/
noncomputable def atan2 (y x : ℝ) : ℝ :=
  if 0 < x then Real.arctan (y / x)
  else if x < 0 then
    (if 0 ≤ y then Real.arctan (y / x) + Real.pi
     else Real.arctan (y / x) - Real.pi)
  else
    (if 0 < y then Real.pi / 2 else if y < 0 then -(Real.pi / 2) else 0)

/-- The intermediate `a` of `calculateDistance` in
`mobile-app/src/screens/NearbyReports.jsx`:

```js
const a =
  Math.sin(dLat / 2) * Math.sin(dLat / 2) +
  Math.cos((lat1 * Math.PI) / 180) *
    Math.cos((lat2 * Math.PI) / 180) *
    Math.sin(dLng / 2) *
    Math.sin(dLng / 2);
```

with `dLat = ((lat2 - lat1) * Math.PI) / 180` and
`dLng = ((lng2 - lng1) * Math.PI) / 180` inlined. -/
noncomputable def havA (lat1 lng1 lat2 lng2 : ℝ) : ℝ :=
  Real.sin ((lat2 - lat1) * Real.pi / 180 / 2) *
      Real.sin ((lat2 - lat1) * Real.pi / 180 / 2) +
    Real.cos (lat1 * Real.pi / 180) * Real.cos (lat2 * Real.pi / 180) *
      Real.sin ((lng2 - lng1) * Real.pi / 180 / 2) *
      Real.sin ((lng2 - lng1) * Real.pi / 180 / 2)

/-- The numeric value `R * c` of `calculateDistance` (R = 6371 km,
`c = 2 * Math.atan2(Math.sqrt(a), Math.sqrt(1 - a))`). -/
noncomputable def haversineKm (lat1 lng1 lat2 lng2 : ℝ) : ℝ :=
  6371 * (2 * atan2 (Real.sqrt (havA lat1 lng1 lat2 lng2))
    (Real.sqrt (1 - havA lat1 lng1 lat2 lng2)))

/-- Rendering of a nonnegative number of hundredths as JS
`(n / 100).toFixed(2)` renders it: integer part, dot, two digits. -/
def renderCents (n : ℤ) : String :=
  toString (n / 100) ++ "." ++
    (if n % 100 < 10 then "0" ++ toString (n % 100) else toString (n % 100))

/-- JS `x.toFixed(2)` for nonnegative `x`, modelled as rounding
half-up to hundredths over the reals. -/
noncomputable def toFixed2 (x : ℝ) : String := renderCents ⌊x * 100 + 1 / 2⌋

/-- From `mobile-app/src/screens/NearbyReports.jsx`: `calculateDistance`
returns `(R * c).toFixed(2)` — a string. -/
noncomputable def calculateDistance (lat1 lng1 lat2 lng2 : ℝ) : String :=
  toFixed2 (haversineKm lat1 lng1 lat2 lng2)

theorem havA_symm (lat1 lng1 lat2 lng2 : ℝ) :
    havA lat2 lng2 lat1 lng1 = havA lat1 lng1 lat2 lng2 := by
  unfold havA
  have h1 : (lat1 - lat2) * Real.pi / 180 / 2 =
      -((lat2 - lat1) * Real.pi / 180 / 2) := by ring
  have h2 : (lng1 - lng2) * Real.pi / 180 / 2 =
      -((lng2 - lng1) * Real.pi / 180 / 2) := by ring
  rw [h1, h2, Real.sin_neg, Real.sin_neg]
  ring

theorem havA_self (lat lng : ℝ) : havA lat lng lat lng = 0 := by
  unfold havA
  have h : (lat - lat) * Real.pi / 180 / 2 = 0 := by ring
  have h' : (lng - lng) * Real.pi / 180 / 2 = 0 := by ring
  rw [h, h', Real.sin_zero]
  ring

theorem haversineKm_self (lat lng : ℝ) : haversineKm lat lng lat lng = 0 := by
  unfold haversineKm
  rw [havA_self, Real.sqrt_zero, sub_zero, Real.sqrt_one]
  have h : atan2 0 1 = 0 := by
    unfold atan2
    rw [if_pos one_pos]
    norm_num [Real.arctan_zero]
  rw [h]
  ring

/-- C9: the client-side great-circle distance is symmetric — swapping the
two coordinate pairs yields the identical rendered string — and at equal
points the underlying value is exactly 0, rendered as "0.00". -/
theorem C9_distance_symm_zero :
    (∀ lat1 lng1 lat2 lng2 : ℝ,
      calculateDistance lat1 lng1 lat2 lng2 =
        calculateDistance lat2 lng2 lat1 lng1) ∧
    (∀ lat lng : ℝ, haversineKm lat lng lat lng = 0 ∧
      calculateDistance lat lng lat lng = "0.00") := by
  constructor
  · intro lat1 lng1 lat2 lng2
    unfold calculateDistance haversineKm
    rw [havA_symm]
  · intro lat lng
    refine ⟨haversineKm_self lat lng, ?_⟩
    unfold calculateDistance
    rw [haversineKm_self]
    unfold toFixed2
    have h : ⌊(0 : ℝ) * 100 + 1 / 2⌋ = 0 := by
      norm_num [Int.floor_eq_zero_iff]
    rw [h]
    rfl

end AquaNexus
